import Mathlib

/-!
Shallow embedding of the `api-saweria` HTTP relay (src/index.js, two file
variants separated in the source dump) and proofs about its observable
behaviour.

The repository contains two variants of the same Express application.  We
embed both where they differ (`generateQRIS` gains a content-type
classification step in the second variant, and the balance call builds its
Authorization header differently); functions whose logic is identical in the
two variants are embedded once.

JavaScript values flowing through the handlers are modelled by a `Json`
inductive; JS truthiness, property access and object spread are embedded
explicitly.  I/O with the upstream service is modelled by passing the
outcome of the outbound `fetch` as an explicit argument; each handler run
records the upstream call it issues (if any) so that "no upstream call is
made" is a provable statement.
-/

namespace Saweria

/-- JSON values (also standing for the JavaScript values the handlers touch;
JSON bodies cannot carry `NaN`, `undefined` or functions, so this covers
every value the code inspects).  Objects are association lists of fields in
insertion order, as in JS. -/
inductive Json where
  | null : Json
  | bool : Bool → Json
  | num : Int → Json
  | str : String → Json
  | arr : List Json → Json
  | obj : List (String × Json) → Json

/-- JS truthiness of a value (`if (v)`).  `null`, `false`, `0` and `""` are
falsy; every object or array is truthy. -/
def Json.truthy : Json → Bool
  | .null => false
  | .bool b => b
  | .num n => n != 0
  | .str s => s != ""
  | .arr _ => true
  | .obj _ => true

/-- First-match association-list lookup.  JS objects have unique keys, so
this agrees with JS property lookup on every list denoting a real object. -/
def lookupField : List (String × Json) → String → Option Json
  | [], _ => none
  | (k', v) :: rest, k => if k' = k then some v else lookupField rest k

/-- Property access `v.k`: `none` models JS `undefined` (also the result of
accessing a named property on a non-object primitive). -/
def Json.get : Json → String → Option Json
  | .obj fields, k => lookupField fields k
  | _, _ => none

/-- Truthiness of a possibly-absent value (`undefined` is falsy). -/
def truthyOpt : Option Json → Bool
  | none => false
  | some j => j.truthy

/-- JS string coercion, used where the code interpolates a value into a
template literal or hands it to the QR encoder.  (Array coercion is
approximated; no handler path coerces an array.) -/
def Json.coerceString : Json → String
  | .str s => s
  | .num n => toString n
  | .bool b => if b then "true" else "false"
  | .null => "null"
  | .arr _ => ""
  | .obj _ => "[object Object]"

/-- Object spread followed by a field assignment, `{...o, k: v}`: if `k` is
already a key its value is replaced in place, otherwise `(k, v)` is appended
at the end. -/
def setFieldList (fields : List (String × Json)) (k : String) (v : Json) :
    List (String × Json) :=
  if fields.any (fun p => p.1 = k) then
    fields.map (fun p => if p.1 = k then (k, v) else p)
  else
    fields ++ [(k, v)]

/-- `{...d, k: v}` on a JSON value; only ever applied to objects by the code
(the non-object case is unreachable on every path that uses it). -/
def Json.setField : Json → String → Json → Json
  | .obj fields, k, v => .obj (setFieldList fields k v)
  | j, _, _ => j

/-- The base64 alphabet used by data URLs. -/
def base64Chars : List Char :=
  "ABCDEFGHIJKLMNOPQRSTUVWXYZabcdefghijklmnopqrstuvwxyz0123456789+/".toList

/-- Character of the base64 alphabet at a 6-bit index. -/
def base64Char (n : Nat) : Char := base64Chars.getD (n % 64) 'A'

/-- UTF-8 bytes (as naturals) of one character. -/
def utf8Bytes (c : Char) : List Nat :=
  let n := c.toNat
  if n < 0x80 then [n]
  else if n < 0x800 then [0xC0 + n / 0x40, 0x80 + n % 0x40]
  else if n < 0x10000 then
    [0xE0 + n / 0x1000, 0x80 + (n / 0x40) % 0x40, 0x80 + n % 0x40]
  else
    [0xF0 + n / 0x40000, 0x80 + (n / 0x1000) % 0x40, 0x80 + (n / 0x40) % 0x40,
     0x80 + n % 0x40]

/-- UTF-8 byte sequence of a string. -/
def strUTF8 (s : String) : List Nat := s.data.flatMap utf8Bytes

/-- Standard base64 of a byte list, with `=` padding. -/
def base64Go : List Nat → String
  | [] => ""
  | [x] =>
    String.mk [base64Char (x / 4), base64Char ((x % 4) * 16)] ++ "=="
  | [x, y] =>
    String.mk [base64Char (x / 4), base64Char ((x % 4) * 16 + y / 16),
               base64Char ((y % 16) * 4)] ++ "="
  | x :: y :: z :: rest =>
    String.mk [base64Char (x / 4), base64Char ((x % 4) * 16 + y / 16),
               base64Char ((y % 16) * 4 + z / 64), base64Char (z % 64)] ++
      base64Go rest

/-- Base64 of the UTF-8 bytes of a string. -/
def base64Encode (s : String) : String := base64Go (strUTF8 s)

/-- Modelled from the spec: the `qrcode` library (`QRCode.toDataURL`, called
with error-correction level "H", type "image/png", width 300) is a dependency
whose sources are not part of this repository.  Per the spec (§4.1) it
deterministically renders the payload into a PNG raster and returns it as a
base64 data URL.  The PNG rasterisation itself is abstracted: we keep the
promised output shape, a string of the form
`"data:image/png;base64," ++ <base64 body>`, with the body computed from the
payload so the encoder stays deterministic. -/
def qrToDataURL (payload : String) : String :=
  "data:image/png;base64," ++ base64Encode payload

/-- Outcome of an outbound `fetch` followed directly by `response.json()`,
as performed by `generateQRIS` (first variant), `checkPaymentStatus` and
`checkAccountBalance`: either the body parsed as JSON, or `response.json()`
rejected (non-JSON body), or `fetch` itself rejected (network failure).  The
messages are the JS error messages, supplied by the environment. -/
inductive UpstreamReply where
  | parsed (j : Json)
  | parseFailure (msg : String)
  | networkFailure (msg : String)

/-- Whether the environment-supplied failure message (if any) is non-empty;
a thrown JS `Error` always carries a message, which this hypothesis makes
explicit. -/
def UpstreamReply.msgNonEmpty : UpstreamReply → Prop
  | .parsed _ => True
  | .parseFailure m => m ≠ ""
  | .networkFailure m => m ≠ ""

/-- The raw HTTP response observed by the second variant of `generateQRIS`,
which inspects status, Content-Type and body text before deciding whether to
parse: `parseResult` is what `response.json()` would yield on this body. -/
structure RawResponse where
  status : Nat
  contentType : Option String
  bodyText : String
  parseResult : Except String Json

/-- Outcome of the outbound `fetch` in the second variant of `generateQRIS`:
either a response to classify, or a rejected fetch. -/
inductive FetchOutcome where
  | ok (r : RawResponse)
  | failed (msg : String)

/-- Non-emptiness of the environment-supplied failure messages reachable in
the second variant of `generateQRIS`. -/
def FetchOutcome.msgNonEmpty : FetchOutcome → Prop
  | .failed m => m ≠ ""
  | .ok r =>
    match r.parseResult with
    | .error m => m ≠ ""
    | .ok _ => True

/-- Whether the character list `s` starts with `pat`. -/
def charsStartWith : List Char → List Char → Bool
  | _, [] => true
  | [], _ :: _ => false
  | a :: as, b :: bs => a = b && charsStartWith as bs

/-- Whether `pat` occurs as a contiguous run inside `s`. -/
def charsContain : List Char → List Char → Bool
  | [], pat => pat.isEmpty
  | a :: rest, pat => charsStartWith (a :: rest) pat || charsContain rest pat

/-- Substring test (`String.prototype.includes`). -/
def strContainsSub (s pat : String) : Bool := charsContain s.data pat.data

/-- The Content-Type gate of the second variant:
`contentType && contentType.includes("application/json")`. -/
def ctIsJson : Option String → Bool
  | none => false
  | some ct => strContainsSub ct "application/json"

/-- Whether a JSON value is `null`.  Reading a named property of `null`
throws a TypeError in JS, unlike reading one of any other primitive (which
yields `undefined`); the embedded functions distinguish the two. -/
def Json.isNull : Json → Bool
  | .null => true
  | _ => false

/-- The engine-generated TypeError message for reading property `data` of a
`null` result (`result.data` with `result === null`), in current Node/V8
wording.  This throw is caught by each function in the source and its
message returned as the error. -/
def nullReadDataMsg : String :=
  "Cannot read properties of null (reading \x27data\x27)"

/-- Failure envelope `{success: false, error: msg}`. -/
def errBody (msg : String) : Json :=
  Json.obj [("success", .bool false), ("error", .str msg)]

/-- Failure envelope of the second-variant `generateQRIS`, which also
timestamps the error. -/
def errBodyTs (msg ts : String) : Json :=
  Json.obj [("success", .bool false), ("error", .str msg), ("timestamp", .str ts)]

/-- `generateQRIS(amount, userId)` (first variant, src/index.js lines
47-112): parse the upstream reply, require a truthy `result.data?.qr_string`,
render the QR image and return `{success, data: {...result.data, qr_image}}`;
any thrown error is caught and returned as `{success: false, error}`.  On a
parsed `null` the bare `result.data` access itself throws a TypeError (the
`?.` guards only the `.qr_string` step), whose message is caught and
relayed. -/
def generateQRIS (reply : UpstreamReply) : Json :=
  match reply with
  | .networkFailure m => errBody m
  | .parseFailure m => errBody m
  | .parsed j =>
    if j.isNull then errBody nullReadDataMsg
    else
      match j.get "data" with
      | none => errBody "Failed to generate QRIS: No QR string in response"
      | some d =>
        if truthyOpt (d.get "qr_string") then
          Json.obj [("success", .bool true),
            ("data", d.setField "qr_image"
              (.str (qrToDataURL (((d.get "qr_string").getD .null).coerceString))))]
        else errBody "Failed to generate QRIS: No QR string in response"

/-- `generateQRIS` (second variant, src/index.js lines 328-424): first
classifies the response by Content-Type — a non-JSON response is turned into
a Cloudflare, HTML-page or generic `API returned non-JSON response: <status>`
error without attempting a parse — then proceeds as the first variant; all
errors additionally carry a timestamp. -/
def generateQRISv2 (reply : FetchOutcome) (now : String) : Json :=
  match reply with
  | .failed m => errBodyTs m now
  | .ok r =>
    if !ctIsJson r.contentType then
      if strContainsSub r.bodyText "cloudflare" || strContainsSub r.bodyText "cf-ray" then
        errBodyTs "Cloudflare protection detected. Try using VPS with Indonesian IP or wait a few minutes." now
      else if strContainsSub r.bodyText "<!DOCTYPE" then
        errBodyTs "Saweria returned HTML page. User ID might be invalid." now
      else
        errBodyTs ("API returned non-JSON response: " ++ toString r.status) now
    else
      match r.parseResult with
      | .error m => errBodyTs m now
      | .ok j =>
        if j.isNull then errBodyTs nullReadDataMsg now
        else
          match j.get "data" with
          | none => errBodyTs "No QR string in response" now
          | some d =>
            if truthyOpt (d.get "qr_string") then
              Json.obj [("success", .bool true),
                ("data", d.setField "qr_image"
                  (.str (qrToDataURL (((d.get "qr_string").getD .null).coerceString))))]
            else errBodyTs "No QR string in response" now

/-- `checkPaymentStatus(donationId)` (identical logic in both variants,
src/index.js lines 119-161 and 429-462): requires a truthy `result.data`,
derives `status` from the truthiness of `result.data.qr_string` and relays
`result.data` unchanged; a parsed `null` throws on the `result.data` access
and the TypeError message is relayed. -/
def checkPaymentStatus (reply : UpstreamReply) : Json :=
  match reply with
  | .networkFailure m => errBody m
  | .parseFailure m => errBody m
  | .parsed j =>
    if j.isNull then errBody nullReadDataMsg
    else
      match j.get "data" with
      | none => errBody "Invalid response structure"
      | some d =>
        if d.truthy then
          Json.obj [("success", .bool true),
            ("status", .str (if truthyOpt (d.get "qr_string") then "PENDING" else "PAID")),
            ("data", d)]
        else errBody "Invalid response structure"

/-- `checkAccountBalance(token)` (identical result logic in both variants,
src/index.js lines 168-209 and 467-499): requires a truthy `result.data` and
returns it as `balance`; there is no Content-Type classification on this
path, so a non-JSON body surfaces as the `response.json()` rejection
message; a parsed `null` throws on the `result.data` access and the
TypeError message is relayed. -/
def checkAccountBalance (reply : UpstreamReply) : Json :=
  match reply with
  | .networkFailure m => errBody m
  | .parseFailure m => errBody m
  | .parsed j =>
    if j.isNull then errBody nullReadDataMsg
    else
      match j.get "data" with
      | none => errBody "Failed to fetch balance"
      | some d =>
        if d.truthy then
          Json.obj [("success", .bool true), ("balance", d)]
        else errBody "Failed to fetch balance"

/-- An outbound HTTP request to the upstream platform, as issued by the
handlers: URL, method, Authorization header (if any) and JSON body (if
any).  Only the parts a claim speaks about are recorded; the static
browser-mimicking headers are constants in the source. -/
structure UpstreamCall where
  url : String
  method : String
  authorization : Option String
  body : Option Json

/-- The fixed donation payload POSTed by `generateQRIS` (identical in both
variants): anonymous donor info, currency IDR, `payment_type` "qris", and
the caller's `amount`. -/
def qrisPayload (amount : Json) : Json :=
  Json.obj [("agree", .bool true), ("notUnderage", .bool true),
    ("message", .str "Donation via API"), ("amount", amount),
    ("payment_type", .str "qris"), ("vote", .str ""),
    ("currency", .str "IDR"),
    ("customer_info", Json.obj [("first_name", .str "Anonymous"),
      ("email", .str "no-reply@donation.my.id"), ("phone", .str "")])]

/-- The donation-creation call: POST to
`https://backend.saweria.co/donations/${userId}`. -/
def qrisCall (amount userId : Json) : UpstreamCall :=
  { url := "https://backend.saweria.co/donations/" ++ userId.coerceString
    method := "POST"
    authorization := none
    body := some (qrisPayload amount) }

/-- The status call: GET
`https://backend.saweria.co/donations/qris/${donationId}`. -/
def statusCall (donationId : String) : UpstreamCall :=
  { url := "https://backend.saweria.co/donations/qris/" ++ donationId
    method := "GET"
    authorization := none
    body := none }

/-- The balance call of the first variant (src/index.js line 187): the raw
token is placed in the Authorization header as-is. -/
def balanceCallV1 (token : String) : UpstreamCall :=
  { url := "https://backend.saweria.co/donations/balance"
    method := "GET"
    authorization := some token
    body := none }

/-- The balance call of the second variant (src/index.js line 479): the
Authorization header is `Bearer ${token}`. -/
def balanceCallV2 (token : String) : UpstreamCall :=
  { url := "https://backend.saweria.co/donations/balance"
    method := "GET"
    authorization := some ("Bearer " ++ token)
    body := none }

/-- One observed handler run: the HTTP status sent, the JSON body sent, and
the upstream call issued during the run (`none` when the handler returned
without contacting upstream). -/
structure HandlerRun where
  status : Nat
  body : Json
  upstreamCall : Option UpstreamCall

/-- Express sets the status from the result (`result.success ? 200 : 400`)
and serialises the result as the body. -/
def respond (result : Json) (call : Option UpstreamCall) : HandlerRun :=
  { status := if truthyOpt (result.get "success") then 200 else 400
    body := result
    upstreamCall := call }

/-- The validation-failure body of `POST /qris`. -/
def requiredErrBody : Json := errBody "Amount and userId are required"

/-- The `POST /qris` handler (first variant, src/index.js lines 220-232):
destructures `amount` and `userId` from the JSON body, rejects when either
is falsy, otherwise runs `generateQRIS` and derives the status from
`result.success`. -/
def postQris (reqBody : Json) (reply : UpstreamReply) : HandlerRun :=
  if !truthyOpt (reqBody.get "amount") || !truthyOpt (reqBody.get "userId") then
    { status := 400, body := requiredErrBody, upstreamCall := none }
  else
    respond (generateQRIS reply)
      (some (qrisCall ((reqBody.get "amount").getD .null)
        ((reqBody.get "userId").getD .null)))

/-- The `POST /qris` handler (second variant, src/index.js lines 502-514):
identical validation, calling the second-variant `generateQRIS`. -/
def postQrisV2 (reqBody : Json) (reply : FetchOutcome) (now : String) :
    HandlerRun :=
  if !truthyOpt (reqBody.get "amount") || !truthyOpt (reqBody.get "userId") then
    { status := 400, body := requiredErrBody, upstreamCall := none }
  else
    respond (generateQRISv2 reply now)
      (some (qrisCall ((reqBody.get "amount").getD .null)
        ((reqBody.get "userId").getD .null)))

/-- The `GET /status/:donationId` handler (identical in both variants,
src/index.js lines 240-244 and 516-520): no validation, the path parameter
is always a string. -/
def getStatus (donationId : String) (reply : UpstreamReply) : HandlerRun :=
  respond (checkPaymentStatus reply) (some (statusCall donationId))

/-- The validation-failure body of `GET /balance`. -/
def tokenErrBody : Json := errBody "Token is required"

/-- The `GET /balance` handler (first variant, src/index.js lines 252-264):
`token` is the query parameter (a string when present), rejected when falsy. -/
def getBalanceV1 (token : Option String) (reply : UpstreamReply) : HandlerRun :=
  match token with
  | none => { status := 400, body := tokenErrBody, upstreamCall := none }
  | some t =>
    if t = "" then { status := 400, body := tokenErrBody, upstreamCall := none }
    else respond (checkAccountBalance reply) (some (balanceCallV1 t))

/-- The `GET /balance` handler (second variant, src/index.js lines 522-534):
same logic, but the upstream call carries the `Bearer `-prefixed header. -/
def getBalanceV2 (token : Option String) (reply : UpstreamReply) : HandlerRun :=
  match token with
  | none => { status := 400, body := tokenErrBody, upstreamCall := none }
  | some t =>
    if t = "" then { status := 400, body := tokenErrBody, upstreamCall := none }
    else respond (checkAccountBalance reply) (some (balanceCallV2 t))

/-! ### Helper lemmas -/

theorem lookupField_map_self (fs : List (String × Json)) (k : String) (v : Json)
    (h : fs.any (fun p => p.1 = k) = true) :
    lookupField (fs.map (fun p => if p.1 = k then (k, v) else p)) k = some v := by
  induction fs with
  | nil => simp at h
  | cons hd tl ih =>
    obtain ⟨k0, v0⟩ := hd
    by_cases hk : k0 = k
    · subst hk
      rw [List.map_cons, if_pos rfl]
      simp [lookupField]
    · have htl : tl.any (fun p => p.1 = k) = true := by
        rw [List.any_cons] at h
        rcases Bool.or_eq_true_iff.mp h with h1 | h1
        · exact absurd (of_decide_eq_true h1) hk
        · exact h1
      rw [List.map_cons, if_neg hk]
      simpa [lookupField, hk] using ih htl

theorem lookupField_map_other (fs : List (String × Json)) (k k' : String) (v : Json)
    (hne : k' ≠ k) :
    lookupField (fs.map (fun p => if p.1 = k then (k, v) else p)) k' =
      lookupField fs k' := by
  induction fs with
  | nil => rfl
  | cons hd tl ih =>
    obtain ⟨k0, v0⟩ := hd
    by_cases hk : k0 = k
    · subst hk
      have hk' : ¬ k0 = k' := fun h => hne h.symm
      rw [List.map_cons, if_pos rfl]
      simp [lookupField, hk', ih]
    · rw [List.map_cons, if_neg hk]
      by_cases h2 : k0 = k'
      · simp [lookupField, h2]
      · simp [lookupField, h2, ih]

theorem lookupField_append_last (fs : List (String × Json)) (k : String) (v : Json) :
    lookupField (fs ++ [(k, v)]) k = some ((lookupField fs k).getD v) := by
  induction fs with
  | nil => simp [lookupField]
  | cons hd tl ih =>
    obtain ⟨k0, v0⟩ := hd
    by_cases hk : k0 = k
    · simp [lookupField, hk]
    · simpa [lookupField, hk] using ih

theorem lookupField_append_other (fs : List (String × Json)) (k k' : String) (v : Json)
    (hne : k' ≠ k) :
    lookupField (fs ++ [(k, v)]) k' = lookupField fs k' := by
  induction fs with
  | nil =>
    have : ¬ k = k' := fun h => hne h.symm
    simp [lookupField, this]
  | cons hd tl ih =>
    obtain ⟨k0, v0⟩ := hd
    by_cases h2 : k0 = k'
    · simp [lookupField, h2]
    · simp [lookupField, h2, ih]

theorem lookupField_eq_none_of_any_false (fs : List (String × Json)) (k : String)
    (h : fs.any (fun p => p.1 = k) = false) : lookupField fs k = none := by
  induction fs with
  | nil => rfl
  | cons hd tl ih =>
    obtain ⟨k0, v0⟩ := hd
    rw [List.any_cons] at h
    rcases Bool.or_eq_false_iff.mp h with ⟨h1, h2⟩
    have hk : ¬ k0 = k := of_decide_eq_false h1
    simp only [lookupField, hk, if_false]
    exact ih h2

/-- Spread-then-assign sets the assigned key. -/
theorem lookupField_setFieldList_self (fs : List (String × Json)) (k : String)
    (v : Json) : lookupField (setFieldList fs k v) k = some v := by
  unfold setFieldList
  split
  · next h => exact lookupField_map_self fs k v h
  · next h =>
    rw [lookupField_append_last fs k v,
      lookupField_eq_none_of_any_false fs k (Bool.eq_false_iff.mpr h)]
    rfl

/-- Spread-then-assign leaves every other key unchanged. -/
theorem lookupField_setFieldList_other (fs : List (String × Json)) (k k' : String)
    (v : Json) (hne : k' ≠ k) :
    lookupField (setFieldList fs k v) k' = lookupField fs k' := by
  unfold setFieldList
  split
  · next h => exact lookupField_map_other fs k k' v hne
  · next h => exact lookupField_append_other fs k k' v hne

theorem errBody_success (msg : String) :
    (errBody msg).get "success" = some (.bool false) := rfl

theorem errBody_error (msg : String) :
    (errBody msg).get "error" = some (.str msg) := rfl

theorem errBodyTs_success (msg ts : String) :
    (errBodyTs msg ts).get "success" = some (.bool false) := rfl

theorem errBodyTs_error (msg ts : String) :
    (errBodyTs msg ts).get "error" = some (.str msg) := rfl

/-- The `success` flag of a `generateQRIS` result is always a boolean. -/
theorem generateQRIS_success_shape (reply : UpstreamReply) :
    (generateQRIS reply).get "success" = some (.bool true) ∨
      (generateQRIS reply).get "success" = some (.bool false) := by
  cases reply with
  | parsed j =>
    by_cases hn : j.isNull = true
    · simp only [generateQRIS, if_pos hn]; exact Or.inr rfl
    · cases hj : j.get "data" with
      | none => simp only [generateQRIS, if_neg hn, hj]; exact Or.inr rfl
      | some d =>
        by_cases hq : truthyOpt (d.get "qr_string") = true
        · simp only [generateQRIS, if_neg hn, hj, if_pos hq]; exact Or.inl rfl
        · simp only [generateQRIS, if_neg hn, hj, if_neg hq]; exact Or.inr rfl
  | parseFailure m => exact Or.inr rfl
  | networkFailure m => exact Or.inr rfl

/-- The `success` flag of a `generateQRISv2` result is always a boolean. -/
theorem generateQRISv2_success_shape (reply : FetchOutcome) (now : String) :
    (generateQRISv2 reply now).get "success" = some (.bool true) ∨
      (generateQRISv2 reply now).get "success" = some (.bool false) := by
  cases reply with
  | failed m => exact Or.inr rfl
  | ok r =>
    by_cases hct : (!ctIsJson r.contentType) = true
    · by_cases h1 : (strContainsSub r.bodyText "cloudflare" ||
          strContainsSub r.bodyText "cf-ray") = true
      · simp only [generateQRISv2, if_pos hct, if_pos h1]; exact Or.inr rfl
      · by_cases h2 : strContainsSub r.bodyText "<!DOCTYPE" = true
        · simp only [generateQRISv2, if_pos hct, if_neg h1, if_pos h2]
          exact Or.inr rfl
        · simp only [generateQRISv2, if_pos hct, if_neg h1, if_neg h2]
          exact Or.inr rfl
    · cases hp : r.parseResult with
      | error m =>
        simp only [generateQRISv2, if_neg hct, hp]; exact Or.inr rfl
      | ok j =>
        by_cases hn : j.isNull = true
        · simp only [generateQRISv2, if_neg hct, hp, if_pos hn]
          exact Or.inr rfl
        · cases hj : j.get "data" with
          | none =>
            simp only [generateQRISv2, if_neg hct, hp, if_neg hn, hj]
            exact Or.inr rfl
          | some d =>
            by_cases hq : truthyOpt (d.get "qr_string") = true
            · simp only [generateQRISv2, if_neg hct, hp, if_neg hn, hj,
                if_pos hq]
              exact Or.inl rfl
            · simp only [generateQRISv2, if_neg hct, hp, if_neg hn, hj,
                if_neg hq]
              exact Or.inr rfl

/-- The `success` flag of a `checkPaymentStatus` result is always a boolean. -/
theorem checkPaymentStatus_success_shape (reply : UpstreamReply) :
    (checkPaymentStatus reply).get "success" = some (.bool true) ∨
      (checkPaymentStatus reply).get "success" = some (.bool false) := by
  cases reply with
  | parsed j =>
    by_cases hn : j.isNull = true
    · simp only [checkPaymentStatus, if_pos hn]; exact Or.inr rfl
    · cases hj : j.get "data" with
      | none => simp only [checkPaymentStatus, if_neg hn, hj]; exact Or.inr rfl
      | some d =>
        by_cases ht : d.truthy = true
        · simp only [checkPaymentStatus, if_neg hn, hj, if_pos ht]
          exact Or.inl rfl
        · simp only [checkPaymentStatus, if_neg hn, hj, if_neg ht]
          exact Or.inr rfl
  | parseFailure m => exact Or.inr rfl
  | networkFailure m => exact Or.inr rfl

/-- The `success` flag of a `checkAccountBalance` result is always a boolean. -/
theorem checkAccountBalance_success_shape (reply : UpstreamReply) :
    (checkAccountBalance reply).get "success" = some (.bool true) ∨
      (checkAccountBalance reply).get "success" = some (.bool false) := by
  cases reply with
  | parsed j =>
    by_cases hn : j.isNull = true
    · simp only [checkAccountBalance, if_pos hn]; exact Or.inr rfl
    · cases hj : j.get "data" with
      | none =>
        simp only [checkAccountBalance, if_neg hn, hj]; exact Or.inr rfl
      | some d =>
        by_cases ht : d.truthy = true
        · simp only [checkAccountBalance, if_neg hn, hj, if_pos ht]
          exact Or.inl rfl
        · simp only [checkAccountBalance, if_neg hn, hj, if_neg ht]
          exact Or.inr rfl
  | parseFailure m => exact Or.inr rfl
  | networkFailure m => exact Or.inr rfl

/-- The status-code discipline of one handler run: the status is 200 or 400,
and it is 200 exactly when the body's `success` flag is `true`. -/
def statusOk (r : HandlerRun) : Prop :=
  (r.status = 200 ∨ r.status = 400) ∧
    (r.status = 200 ↔ r.body.get "success" = some (.bool true))

theorem respond_statusOk (result : Json) (c : Option UpstreamCall)
    (h : result.get "success" = some (.bool true) ∨
      result.get "success" = some (.bool false)) :
    statusOk (respond result c) := by
  rcases h with h | h
  · refine ⟨Or.inl ?_, ?_⟩ <;> simp [respond, h, truthyOpt, Json.truthy]
  · refine ⟨Or.inr ?_, ?_⟩ <;> simp [respond, h, truthyOpt, Json.truthy]

theorem validation_statusOk (msg : String) :
    statusOk ⟨400, errBody msg, none⟩ := by
  refine ⟨Or.inr rfl, ?_⟩
  rw [errBody_success]
  simp

theorem postQris_statusOk (reqBody : Json) (reply : UpstreamReply) :
    statusOk (postQris reqBody reply) := by
  unfold postQris
  split
  · exact validation_statusOk "Amount and userId are required"
  · exact respond_statusOk _ _ (generateQRIS_success_shape reply)

theorem postQrisV2_statusOk (reqBody : Json) (reply : FetchOutcome)
    (now : String) : statusOk (postQrisV2 reqBody reply now) := by
  unfold postQrisV2
  split
  · exact validation_statusOk "Amount and userId are required"
  · exact respond_statusOk _ _ (generateQRISv2_success_shape reply now)

theorem getStatus_statusOk (donationId : String) (reply : UpstreamReply) :
    statusOk (getStatus donationId reply) :=
  respond_statusOk _ _ (checkPaymentStatus_success_shape reply)

theorem getBalanceV1_statusOk (token : Option String) (reply : UpstreamReply) :
    statusOk (getBalanceV1 token reply) := by
  unfold getBalanceV1
  cases token with
  | none => exact validation_statusOk "Token is required"
  | some t =>
    dsimp only
    by_cases ht : t = ""
    · rw [if_pos ht]; exact validation_statusOk "Token is required"
    · rw [if_neg ht]
      exact respond_statusOk _ _ (checkAccountBalance_success_shape reply)

theorem getBalanceV2_statusOk (token : Option String) (reply : UpstreamReply) :
    statusOk (getBalanceV2 token reply) := by
  unfold getBalanceV2
  cases token with
  | none => exact validation_statusOk "Token is required"
  | some t =>
    dsimp only
    by_cases ht : t = ""
    · rw [if_pos ht]; exact validation_statusOk "Token is required"
    · rw [if_neg ht]
      exact respond_statusOk _ _ (checkAccountBalance_success_shape reply)

/-! ### Claim theorems -/

/-- C5: For every response produced by the three endpoint handlers (POST
/qris, GET /status/:donationId, GET /balance), in both variants of the
source, the HTTP status code is 200 exactly when the body's `success` flag
is `true` and 400 otherwise; every handler-detected failure surfaces as 400,
never any other status. -/
theorem c5_status_from_success_flag (reqBody : Json) (reply : UpstreamReply)
    (r2 : FetchOutcome) (now donationId : String) (token : Option String) :
    statusOk (postQris reqBody reply) ∧
    statusOk (postQrisV2 reqBody r2 now) ∧
    statusOk (getStatus donationId reply) ∧
    statusOk (getBalanceV1 token reply) ∧
    statusOk (getBalanceV2 token reply) :=
  ⟨postQris_statusOk reqBody reply, postQrisV2_statusOk reqBody r2 now,
    getStatus_statusOk donationId reply, getBalanceV1_statusOk token reply,
    getBalanceV2_statusOk token reply⟩

/-- C7: For every GET /balance request with no `token` query parameter, both
variants of the handler respond exactly HTTP 400 with body
`{success:false, error:"Token is required"}` and issue no upstream call. -/
theorem c7_missing_token (reply reply2 : UpstreamReply) :
    getBalanceV1 none reply = ⟨400, tokenErrBody, none⟩ ∧
    getBalanceV2 none reply2 = ⟨400, tokenErrBody, none⟩ :=
  ⟨rfl, rfl⟩

/-- C3: For every POST /qris request in which the `amount` or the `userId`
field is missing from the body, both variants of the handler respond exactly
HTTP 400 with body `{success:false, error:"Amount and userId are required"}`
and issue no upstream call. -/
theorem c3_missing_params (reqBody : Json) (reply : UpstreamReply)
    (r2 : FetchOutcome) (now : String)
    (h : reqBody.get "amount" = none ∨ reqBody.get "userId" = none) :
    postQris reqBody reply = ⟨400, requiredErrBody, none⟩ ∧
    postQrisV2 reqBody r2 now = ⟨400, requiredErrBody, none⟩ := by
  have hv : (!truthyOpt (reqBody.get "amount") ||
      !truthyOpt (reqBody.get "userId")) = true := by
    rcases h with h | h <;> simp [h, truthyOpt]
  unfold postQris postQrisV2
  rw [if_pos hv, if_pos hv]
  exact ⟨rfl, rfl⟩

/-- C3 witness: a request body with neither field present is rejected by
both variants without an upstream call. -/
theorem c3_missing_params_witness :
    postQris (Json.obj []) (.networkFailure "boom") = ⟨400, requiredErrBody, none⟩ ∧
    postQrisV2 (Json.obj []) (.failed "boom") "ts" = ⟨400, requiredErrBody, none⟩ :=
  c3_missing_params (Json.obj []) (.networkFailure "boom") (.failed "boom") "ts"
    (Or.inl rfl)

/-- A value with a successfully read property is not `null`. -/
theorem Json.isNull_false_of_get (j : Json) (k : String) (v : Json)
    (h : j.get k = some v) : j.isNull = false := by
  cases j with
  | null => exact absurd h (by simp [Json.get])
  | bool b => rfl
  | num n => rfl
  | str s => rfl
  | arr l => rfl
  | obj fs => rfl

/-- A value whose `isNull` test is positive is `null`. -/
theorem Json.eq_null_of_isNull (j : Json) (h : j.isNull = true) : j = .null := by
  cases j with
  | null => rfl
  | bool b => simp [Json.isNull] at h
  | num n => simp [Json.isNull] at h
  | str s => simp [Json.isNull] at h
  | arr l => simp [Json.isNull] at h
  | obj fs => simp [Json.isNull] at h

/-- Evaluation of the first-variant `generateQRIS` on a parsed `null`: the
`result.data` access throws and its TypeError message is returned. -/
theorem generateQRIS_parsed_null :
    generateQRIS (.parsed .null) = errBody nullReadDataMsg := rfl

/-- Evaluation of the first-variant `generateQRIS` on a parsed reply with a
truthy `data.qr_string`. -/
theorem generateQRIS_parsed_ok (j d : Json) (hd : j.get "data" = some d)
    (hq : truthyOpt (d.get "qr_string") = true) :
    generateQRIS (.parsed j) = Json.obj [("success", .bool true),
      ("data", d.setField "qr_image"
        (.str (qrToDataURL (((d.get "qr_string").getD .null).coerceString))))] := by
  have hn : ¬ j.isNull = true := by
    simp [Json.isNull_false_of_get j "data" d hd]
  simp only [generateQRIS, if_neg hn, hd, if_pos hq]

/-- Evaluation of the first-variant `generateQRIS` on a parsed non-null
reply without a truthy `data.qr_string`. -/
theorem generateQRIS_parsed_noQr (j : Json) (hnn : j.isNull = false)
    (hq : truthyOpt ((j.get "data").bind (fun d => d.get "qr_string")) = false) :
    generateQRIS (.parsed j)
      = errBody "Failed to generate QRIS: No QR string in response" := by
  have hn : ¬ j.isNull = true := by simp [hnn]
  cases hd : j.get "data" with
  | none => simp only [generateQRIS, if_neg hn, hd]
  | some d =>
    rw [hd] at hq
    simp only [Option.bind] at hq
    simp only [generateQRIS, if_neg hn, hd]
    rw [if_neg (show ¬ truthyOpt (d.get "qr_string") = true by simp [hq])]

/-- Evaluation of the second-variant `generateQRIS` on a parsed `null`. -/
theorem generateQRISv2_parsed_null (r : RawResponse) (now : String)
    (hct : ctIsJson r.contentType = true) (hp : r.parseResult = .ok .null) :
    generateQRISv2 (.ok r) now = errBodyTs nullReadDataMsg now := by
  have hcond : ¬ ((!ctIsJson r.contentType) = true) := by rw [hct]; decide
  simp only [generateQRISv2, if_neg hcond, hp]
  rfl

/-- Evaluation of the second-variant `generateQRIS` when the Content-Type
passes the JSON gate and the body parses with a truthy `data.qr_string`. -/
theorem generateQRISv2_parsed_ok (r : RawResponse) (j d : Json) (now : String)
    (hct : ctIsJson r.contentType = true) (hp : r.parseResult = .ok j)
    (hd : j.get "data" = some d) (hq : truthyOpt (d.get "qr_string") = true) :
    generateQRISv2 (.ok r) now = Json.obj [("success", .bool true),
      ("data", d.setField "qr_image"
        (.str (qrToDataURL (((d.get "qr_string").getD .null).coerceString))))] := by
  have hcond : ¬ ((!ctIsJson r.contentType) = true) := by rw [hct]; decide
  have hn : ¬ j.isNull = true := by
    simp [Json.isNull_false_of_get j "data" d hd]
  simp only [generateQRISv2, if_neg hcond, hp, if_neg hn, hd, if_pos hq]

/-- Evaluation of the second-variant `generateQRIS` when the Content-Type
passes the JSON gate but the parsed non-null body has no truthy
`data.qr_string`. -/
theorem generateQRISv2_parsed_noQr (r : RawResponse) (j : Json) (now : String)
    (hct : ctIsJson r.contentType = true) (hp : r.parseResult = .ok j)
    (hnn : j.isNull = false)
    (hq : truthyOpt ((j.get "data").bind (fun d => d.get "qr_string")) = false) :
    generateQRISv2 (.ok r) now = errBodyTs "No QR string in response" now := by
  have hcond : ¬ ((!ctIsJson r.contentType) = true) := by rw [hct]; decide
  have hn : ¬ j.isNull = true := by simp [hnn]
  cases hd : j.get "data" with
  | none => simp only [generateQRISv2, if_neg hcond, hp, if_neg hn, hd]
  | some d =>
    rw [hd] at hq
    simp only [Option.bind] at hq
    simp only [generateQRISv2, if_neg hcond, hp, if_neg hn, hd]
    rw [if_neg (show ¬ truthyOpt (d.get "qr_string") = true by simp [hq])]

/-- A validated `POST /qris` run is exactly `generateQRIS` wrapped in the
status/response glue, with the donation-creation call issued (first
variant). -/
theorem postQris_valid (reqBody : Json)
    (hA : truthyOpt (reqBody.get "amount") = true)
    (hU : truthyOpt (reqBody.get "userId") = true) (reply : UpstreamReply) :
    postQris reqBody reply = respond (generateQRIS reply)
      (some (qrisCall ((reqBody.get "amount").getD .null)
        ((reqBody.get "userId").getD .null))) := by
  unfold postQris
  rw [if_neg (by simp [hA, hU])]

/-- A validated `POST /qris` run in the second variant. -/
theorem postQrisV2_valid (reqBody : Json)
    (hA : truthyOpt (reqBody.get "amount") = true)
    (hU : truthyOpt (reqBody.get "userId") = true) (reply : FetchOutcome)
    (now : String) :
    postQrisV2 reqBody reply now = respond (generateQRISv2 reply now)
      (some (qrisCall ((reqBody.get "amount").getD .null)
        ((reqBody.get "userId").getD .null))) := by
  unfold postQrisV2
  rw [if_neg (by simp [hA, hU])]

/-- C2 counterexample: the upstream reply `{"data": null}` contains a `data`
field whose `qr_string` is absent, so the claim demands a 200 response with
status "PAID"; the handler instead takes the failure branch (`result.data`
is falsy): HTTP 400, no `status` field, error "Invalid response structure". -/
theorem c2_counterexample :
    (getStatus "d1" (.parsed (Json.obj [("data", Json.null)]))).status = 400 ∧
    (getStatus "d1" (.parsed (Json.obj [("data", Json.null)]))).body.get "status"
      = none ∧
    (getStatus "d1" (.parsed (Json.obj [("data", Json.null)]))).body.get "error"
      = some (.str "Invalid response structure") :=
  ⟨rfl, rfl, rfl⟩

/-- C2 (amended): for every GET /status/:donationId response where the
upstream reply contains a truthy `data` field (in particular whenever its
value is an object), the returned status is a pure function of
`data.qr_string` — "PENDING" when truthy, "PAID" when empty, null or absent
— and the returned `data` is the upstream value relayed unchanged; a
present-but-falsy `data` (e.g. `null`) instead yields the 400
"Invalid response structure" failure. -/
theorem c2_status_pure_function (donationId : String) (j d : Json)
    (hd : j.get "data" = some d) (ht : d.truthy = true) :
    (getStatus donationId (.parsed j)).status = 200 ∧
    (getStatus donationId (.parsed j)).body.get "status" =
      some (.str (if truthyOpt (d.get "qr_string") then "PENDING" else "PAID")) ∧
    (getStatus donationId (.parsed j)).body.get "data" = some d := by
  unfold getStatus
  have hn : ¬ j.isNull = true := by
    simp [Json.isNull_false_of_get j "data" d hd]
  simp only [checkPaymentStatus, if_neg hn, hd, if_pos ht]
  exact ⟨rfl, rfl, rfl⟩

/-- C2 witness: the spec's own PAID scenario — a paid donation snapshot with
`qr_string: null` — yields 200, status "PAID", and the snapshot relayed
unchanged. -/
theorem c2_status_pure_function_witness :
    (getStatus "d1" (.parsed (Json.obj [("data", Json.obj [("id", .str "d1"),
        ("qr_string", Json.null),
        ("paid_at", .str "2025-01-15T10:40:00Z")])]))).status = 200 ∧
    (getStatus "d1" (.parsed (Json.obj [("data", Json.obj [("id", .str "d1"),
        ("qr_string", Json.null),
        ("paid_at", .str "2025-01-15T10:40:00Z")])]))).body.get "status"
      = some (.str "PAID") ∧
    (getStatus "d1" (.parsed (Json.obj [("data", Json.obj [("id", .str "d1"),
        ("qr_string", Json.null),
        ("paid_at", .str "2025-01-15T10:40:00Z")])]))).body.get "data"
      = some (Json.obj [("id", .str "d1"), ("qr_string", Json.null),
          ("paid_at", .str "2025-01-15T10:40:00Z")]) :=
  c2_status_pure_function "d1"
    (Json.obj [("data", Json.obj [("id", .str "d1"), ("qr_string", Json.null),
      ("paid_at", .str "2025-01-15T10:40:00Z")])])
    (Json.obj [("id", .str "d1"), ("qr_string", Json.null),
      ("paid_at", .str "2025-01-15T10:40:00Z")]) rfl rfl

/-- C8: for every balance lookup with a truthy token `t`, both variants
issue the GET to the fixed balance endpoint with `t` forwarded unmodified in
the Authorization header: the first variant sends the raw token itself, the
second sends `"Bearer " ++ t` with `t` embedded verbatim. -/
theorem c8_token_in_authorization (t : String) (ht : t ≠ "")
    (reply : UpstreamReply) :
    (getBalanceV1 (some t) reply).upstreamCall = some (balanceCallV1 t) ∧
    (getBalanceV2 (some t) reply).upstreamCall = some (balanceCallV2 t) ∧
    (balanceCallV1 t).authorization = some t ∧
    (balanceCallV2 t).authorization = some ("Bearer " ++ t) ∧
    (balanceCallV1 t).url = "https://backend.saweria.co/donations/balance" ∧
    (balanceCallV2 t).url = "https://backend.saweria.co/donations/balance" ∧
    (balanceCallV1 t).method = "GET" ∧
    (balanceCallV2 t).method = "GET" := by
  refine ⟨?_, ?_, rfl, rfl, rfl, rfl, rfl, rfl⟩
  · unfold getBalanceV1; dsimp only; rw [if_neg ht]; rfl
  · unfold getBalanceV2; dsimp only; rw [if_neg ht]; rfl

/-- C8 witness at the token "abc". -/
theorem c8_token_in_authorization_witness :
    (getBalanceV1 (some "abc") (.networkFailure "boom")).upstreamCall
      = some (balanceCallV1 "abc") ∧
    (getBalanceV2 (some "abc") (.networkFailure "boom")).upstreamCall
      = some (balanceCallV2 "abc") ∧
    (balanceCallV1 "abc").authorization = some "abc" ∧
    (balanceCallV2 "abc").authorization = some "Bearer abc" ∧
    (balanceCallV1 "abc").url = "https://backend.saweria.co/donations/balance" ∧
    (balanceCallV2 "abc").url = "https://backend.saweria.co/donations/balance" ∧
    (balanceCallV1 "abc").method = "GET" ∧
    (balanceCallV2 "abc").method = "GET" :=
  c8_token_in_authorization "abc" (by decide) (.networkFailure "boom")

/-- C9: the /qris validation treats every falsy amount as absent — a request
with amount 0 is rejected exactly like a missing amount, with no upstream
call, in both variants — while every non-zero integer amount (negative ones
included) passes validation and is forwarded as the `amount` field of the
upstream donation payload. -/
theorem c9_zero_amount_rejected (uid : String) (hu : uid ≠ "")
    (reply : UpstreamReply) (r2 : FetchOutcome) (now : String) (a : Int)
    (ha : a ≠ 0) :
    postQris (Json.obj [("amount", .num 0), ("userId", .str uid)]) reply
      = ⟨400, requiredErrBody, none⟩ ∧
    postQrisV2 (Json.obj [("amount", .num 0), ("userId", .str uid)]) r2 now
      = ⟨400, requiredErrBody, none⟩ ∧
    (postQris (Json.obj [("amount", .num a), ("userId", .str uid)])
        reply).upstreamCall = some (qrisCall (.num a) (.str uid)) ∧
    (postQrisV2 (Json.obj [("amount", .num a), ("userId", .str uid)])
        r2 now).upstreamCall = some (qrisCall (.num a) (.str uid)) ∧
    Option.bind (qrisCall (.num a) (.str uid)).body (fun b => b.get "amount")
      = some (.num a) := by
  have hA : truthyOpt ((Json.obj [("amount", Json.num a),
      ("userId", Json.str uid)]).get "amount") = true := by
    simp [Json.get, lookupField, truthyOpt, Json.truthy, ha]
  have hU : truthyOpt ((Json.obj [("amount", Json.num a),
      ("userId", Json.str uid)]).get "userId") = true := by
    simp [Json.get, lookupField, truthyOpt, Json.truthy, hu]
  refine ⟨rfl, rfl, ?_, ?_, rfl⟩
  · rw [postQris_valid _ hA hU reply]; rfl
  · rw [postQrisV2_valid _ hA hU r2 now]; rfl

/-- C9 witness: amount 0 is rejected, amount -5000 is forwarded. -/
theorem c9_zero_amount_rejected_witness :
    postQris (Json.obj [("amount", .num 0), ("userId", .str "u")])
        (.networkFailure "boom") = ⟨400, requiredErrBody, none⟩ ∧
    postQrisV2 (Json.obj [("amount", .num 0), ("userId", .str "u")])
        (.failed "boom") "ts" = ⟨400, requiredErrBody, none⟩ ∧
    (postQris (Json.obj [("amount", .num (-5000)), ("userId", .str "u")])
        (.networkFailure "boom")).upstreamCall
      = some (qrisCall (.num (-5000)) (.str "u")) ∧
    (postQrisV2 (Json.obj [("amount", .num (-5000)), ("userId", .str "u")])
        (.failed "boom") "ts").upstreamCall
      = some (qrisCall (.num (-5000)) (.str "u")) ∧
    Option.bind (qrisCall (.num (-5000)) (.str "u")).body
      (fun b => b.get "amount") = some (.num (-5000)) :=
  c9_zero_amount_rejected "u" (by decide) (.networkFailure "boom")
    (.failed "boom") "ts" (-5000) (by decide)

/-- C10: in every successful QRIS creation, the result's `data` object is
the upstream `data` spread first with `qr_image` assigned afterwards: the
`qr_image` key always holds the locally generated data URL (overwriting any
upstream-supplied `qr_image`), and every other upstream field is relayed
unchanged.  Stated for both variants of `generateQRIS`. -/
theorem c10_qr_image_overwrite (fields : List (String × Json)) (qs : Json)
    (hq : lookupField fields "qr_string" = some qs) (hqs : qs.truthy = true)
    (now : String) (k : String) (hk : k ≠ "qr_image") :
    (generateQRIS (.parsed (Json.obj [("data", Json.obj fields)]))).get "data"
      = some (.obj (setFieldList fields "qr_image"
          (.str (qrToDataURL qs.coerceString)))) ∧
    (generateQRISv2 (.ok ⟨200, some "application/json", "()",
        .ok (Json.obj [("data", Json.obj fields)])⟩) now).get "data"
      = some (.obj (setFieldList fields "qr_image"
          (.str (qrToDataURL qs.coerceString)))) ∧
    lookupField (setFieldList fields "qr_image"
        (.str (qrToDataURL qs.coerceString))) "qr_image"
      = some (.str (qrToDataURL qs.coerceString)) ∧
    lookupField (setFieldList fields "qr_image"
        (.str (qrToDataURL qs.coerceString))) k
      = lookupField fields k := by
  have hg : (Json.obj fields).get "qr_string" = some qs := hq
  have htr : truthyOpt ((Json.obj fields).get "qr_string") = true := by
    rw [hg]; exact hqs
  refine ⟨?_, ?_, lookupField_setFieldList_self _ _ _,
    lookupField_setFieldList_other _ _ _ _ hk⟩
  · rw [generateQRIS_parsed_ok (Json.obj [("data", Json.obj fields)])
      (Json.obj fields) rfl htr, hg]
    rfl
  · rw [generateQRISv2_parsed_ok
      ⟨200, some "application/json", "()",
        .ok (Json.obj [("data", Json.obj fields)])⟩
      (Json.obj [("data", Json.obj fields)])
      (Json.obj fields) now rfl rfl rfl htr, hg]
    rfl

/-- C10 witness: an upstream `data` that itself carries a `qr_image` field
has it overwritten by the locally generated data URL, while `qr_string` is
relayed unchanged. -/
theorem c10_qr_image_overwrite_witness :
    (generateQRIS (.parsed (Json.obj [("data", Json.obj
        [("qr_image", .str "upstream-supplied"),
         ("qr_string", .str "q")])]))).get "data"
      = some (.obj (setFieldList [("qr_image", .str "upstream-supplied"),
          ("qr_string", .str "q")] "qr_image"
          (.str (qrToDataURL "q")))) ∧
    (generateQRISv2 (.ok ⟨200, some "application/json", "()",
        .ok (Json.obj [("data", Json.obj
          [("qr_image", .str "upstream-supplied"),
           ("qr_string", .str "q")])])⟩) "ts").get "data"
      = some (.obj (setFieldList [("qr_image", .str "upstream-supplied"),
          ("qr_string", .str "q")] "qr_image"
          (.str (qrToDataURL "q")))) ∧
    lookupField (setFieldList [("qr_image", .str "upstream-supplied"),
        ("qr_string", .str "q")] "qr_image" (.str (qrToDataURL "q"))) "qr_image"
      = some (.str (qrToDataURL "q")) ∧
    lookupField (setFieldList [("qr_image", .str "upstream-supplied"),
        ("qr_string", .str "q")] "qr_image" (.str (qrToDataURL "q"))) "qr_string"
      = lookupField [("qr_image", .str "upstream-supplied"),
          ("qr_string", .str "q")] "qr_string" :=
  c10_qr_image_overwrite [("qr_image", .str "upstream-supplied"),
    ("qr_string", .str "q")] (.str "q") rfl rfl "ts" "qr_string" (by decide)

/-- C4 counterexample: a GET /balance request whose upstream reply is a
non-JSON HTML body makes `response.json()` reject; the handler (either
variant) relays that parse-error message — here the classic
"Unexpected token <" — as the error, which is neither the claimed
`API returned non-JSON response: <status>` message (it does not even start
with that prefix) nor the Cloudflare-specific message.  The content-type
classification exists only in the second variant's `generateQRIS`, not on
the balance path. -/
theorem c4_counterexample :
    (getBalanceV1 (some "abc")
        (.parseFailure "Unexpected token < in JSON at position 0")).status
      = 400 ∧
    (getBalanceV1 (some "abc")
        (.parseFailure "Unexpected token < in JSON at position 0")).body.get
        "error"
      = some (.str "Unexpected token < in JSON at position 0") ∧
    (getBalanceV2 (some "abc")
        (.parseFailure "Unexpected token < in JSON at position 0")).body.get
        "error"
      = some (.str "Unexpected token < in JSON at position 0") ∧
    "Unexpected token < in JSON at position 0"
      ≠ "API returned non-JSON response: 403" ∧
    charsStartWith "Unexpected token < in JSON at position 0".data
        "API returned non-JSON response".data = false ∧
    "Unexpected token < in JSON at position 0"
      ≠ "Cloudflare protection detected. Try using VPS with Indonesian IP or wait a few minutes." :=
  ⟨rfl, rfl, rfl, by decide, by decide, by decide⟩

/-- C4 (amended): when the upstream returns a non-JSON body for
GET /balance, `checkAccountBalance` (both variants) has no Content-Type
classification — `response.json()` rejects and the handler responds 400
`{success:false, error: <the parse-error message>}`; the
`API returned non-JSON response: <status>` and Cloudflare messages are
produced only by the second variant's `generateQRIS` on the /qris path. -/
theorem c4_balance_nonjson_parse_error (t m now : String) (ht : t ≠ "")
    (r : RawResponse) (hct : ctIsJson r.contentType = false)
    (hcf : strContainsSub r.bodyText "cloudflare" = false)
    (hcf2 : strContainsSub r.bodyText "cf-ray" = false)
    (hdoc : strContainsSub r.bodyText "<!DOCTYPE" = false) :
    getBalanceV1 (some t) (.parseFailure m)
      = ⟨400, errBody m, some (balanceCallV1 t)⟩ ∧
    getBalanceV2 (some t) (.parseFailure m)
      = ⟨400, errBody m, some (balanceCallV2 t)⟩ ∧
    (generateQRISv2 (.ok r) now).get "error"
      = some (.str ("API returned non-JSON response: " ++ toString r.status)) := by
  refine ⟨?_, ?_, ?_⟩
  · unfold getBalanceV1; dsimp only; rw [if_neg ht]; rfl
  · unfold getBalanceV2; dsimp only; rw [if_neg ht]; rfl
  · have hcond : (!ctIsJson r.contentType) = true := by rw [hct]; rfl
    simp only [generateQRISv2, if_pos hcond,
      if_neg (show ¬ ((strContainsSub r.bodyText "cloudflare" ||
        strContainsSub r.bodyText "cf-ray") = true) by simp [hcf, hcf2]),
      if_neg (show ¬ (strContainsSub r.bodyText "<!DOCTYPE" = true) by
        simp [hdoc])]
    exact errBodyTs_error _ _

/-- C4 amended witness: a Cloudflare-free HTML 403 body. -/
theorem c4_balance_nonjson_parse_error_witness :
    getBalanceV1 (some "abc")
        (.parseFailure "Unexpected token < in JSON at position 0")
      = ⟨400, errBody "Unexpected token < in JSON at position 0",
          some (balanceCallV1 "abc")⟩ ∧
    getBalanceV2 (some "abc")
        (.parseFailure "Unexpected token < in JSON at position 0")
      = ⟨400, errBody "Unexpected token < in JSON at position 0",
          some (balanceCallV2 "abc")⟩ ∧
    (generateQRISv2 (.ok ⟨403, some "text/html", "<html>blocked</html>",
        .error "Unexpected token < in JSON at position 0"⟩) "ts").get "error"
      = some (.str ("API returned non-JSON response: " ++ toString 403)) :=
  c4_balance_nonjson_parse_error "abc"
    "Unexpected token < in JSON at position 0" "ts" (by decide)
    ⟨403, some "text/html", "<html>blocked</html>",
      .error "Unexpected token < in JSON at position 0"⟩
    (by decide) (by decide) (by decide) (by decide)

/-- The upstream donation record's `qr_string` as observed through a
first-variant reply. -/
def upstreamQrString : UpstreamReply → Option Json
  | .parsed j => (j.get "data").bind (fun d => d.get "qr_string")
  | .parseFailure _ => none
  | .networkFailure _ => none

/-- The upstream donation record's `qr_string` as observed through a
second-variant fetch outcome. -/
def upstreamQrStringV2 : FetchOutcome → Option Json
  | .ok r =>
    match r.parseResult with
    | .ok j => (j.get "data").bind (fun d => d.get "qr_string")
    | .error _ => none
  | .failed _ => none

/-- A successful QRIS-creation body in the sense of C1: `success: true`, a
non-empty `qr_image` data URL, and `data.qr_string` equal to the upstream
record's. -/
def okQrisBody (body : Json) (upstreamQr : Option Json) : Prop :=
  body.get "success" = some (.bool true) ∧
  (∃ img : String,
    (body.get "data").bind (fun d => d.get "qr_image") = some (.str img) ∧
    img ≠ "" ∧ ∃ rest : String, img = "data:image/png;base64," ++ rest) ∧
  (body.get "data").bind (fun d => d.get "qr_string") = upstreamQr

/-- A failed QRIS-creation body in the sense of C1: `success: false` with a
non-empty error string. -/
def errQrisBody (body : Json) : Prop :=
  body.get "success" = some (.bool false) ∧
  ∃ e : String, body.get "error" = some (.str e) ∧ e ≠ ""

theorem string_eq_empty_of_length (s : String) (h : s.length = 0) : s = "" := by
  cases s with
  | mk l =>
    cases l with
    | nil => rfl
    | cons c cs => simp [String.length] at h

theorem append_left_ne_empty (s t : String) (hs : s ≠ "") : s ++ t ≠ "" := by
  intro h
  have hlen := congrArg String.length h
  rw [String.length_append, show ("" : String).length = 0 from rfl] at hlen
  exact hs (string_eq_empty_of_length s (by omega))

theorem dataURL_ne_empty (rest : String) :
    "data:image/png;base64," ++ rest ≠ "" :=
  append_left_ne_empty _ _ (by decide)

/-- The spread-then-assign result body satisfies C1's success shape. -/
theorem okQrisBody_spread (fs : List (String × Json)) :
    okQrisBody (Json.obj [("success", .bool true),
      ("data", (Json.obj fs).setField "qr_image"
        (.str (qrToDataURL
          ((((Json.obj fs).get "qr_string")).getD .null).coerceString)))])
      (lookupField fs "qr_string") := by
  refine ⟨rfl,
    ⟨qrToDataURL ((((Json.obj fs).get "qr_string")).getD .null).coerceString,
      ?_, dataURL_ne_empty _, ⟨base64Encode _, rfl⟩⟩, ?_⟩
  · show lookupField (setFieldList fs "qr_image"
      (.str (qrToDataURL
        ((((Json.obj fs).get "qr_string")).getD .null).coerceString))) "qr_image"
      = _
    exact lookupField_setFieldList_self _ _ _
  · show lookupField (setFieldList fs "qr_image"
      (.str (qrToDataURL
        ((((Json.obj fs).get "qr_string")).getD .null).coerceString))) "qr_string"
      = lookupField fs "qr_string"
    exact lookupField_setFieldList_other _ _ _ _ (by decide)

/-- C1's dichotomy at the level of the first-variant `generateQRIS`. -/
theorem generateQRIS_ok_or_err (reply : UpstreamReply) (hm : reply.msgNonEmpty) :
    okQrisBody (generateQRIS reply) (upstreamQrString reply) ∨
      errQrisBody (generateQRIS reply) := by
  cases reply with
  | networkFailure m => exact Or.inr ⟨rfl, m, rfl, hm⟩
  | parseFailure m => exact Or.inr ⟨rfl, m, rfl, hm⟩
  | parsed j =>
    by_cases hn : j.isNull = true
    · right
      rw [Json.eq_null_of_isNull j hn, generateQRIS_parsed_null]
      exact ⟨rfl, _, rfl, by decide⟩
    · have hnn : j.isNull = false := by simpa using hn
      by_cases hq : truthyOpt ((j.get "data").bind (fun d => d.get "qr_string"))
          = true
      · left
        cases hd : j.get "data" with
        | none => rw [hd] at hq; simp [truthyOpt, Option.bind] at hq
        | some d =>
          rw [hd] at hq
          simp only [Option.bind] at hq
          cases d with
          | obj fs =>
            rw [generateQRIS_parsed_ok j (.obj fs) hd hq,
              show upstreamQrString (.parsed j) = lookupField fs "qr_string" by
                simp only [upstreamQrString, hd, Option.bind]; rfl]
            exact okQrisBody_spread fs
          | null => simp [Json.get, truthyOpt] at hq
          | bool b => simp [Json.get, truthyOpt] at hq
          | num n => simp [Json.get, truthyOpt] at hq
          | str s => simp [Json.get, truthyOpt] at hq
          | arr l => simp [Json.get, truthyOpt] at hq
      · right
        rw [generateQRIS_parsed_noQr j hnn (by simpa using hq)]
        exact ⟨rfl, _, rfl, by decide⟩

/-- Evaluation of the second-variant `generateQRIS` when the JSON gate
passes but the body fails to parse. -/
theorem generateQRISv2_parse_error (r : RawResponse) (m now : String)
    (hct : ctIsJson r.contentType = true) (hp : r.parseResult = .error m) :
    generateQRISv2 (.ok r) now = errBodyTs m now := by
  have hcond : ¬ ((!ctIsJson r.contentType) = true) := by rw [hct]; decide
  simp only [generateQRISv2, if_neg hcond, hp]

/-- Evaluation of the second-variant `generateQRIS` on a non-JSON
Content-Type: the three classification messages. -/
theorem generateQRISv2_nonjson (r : RawResponse) (now : String)
    (hct : ctIsJson r.contentType = false) :
    generateQRISv2 (.ok r) now
      = if (strContainsSub r.bodyText "cloudflare" ||
            strContainsSub r.bodyText "cf-ray") then
          errBodyTs "Cloudflare protection detected. Try using VPS with Indonesian IP or wait a few minutes." now
        else if strContainsSub r.bodyText "<!DOCTYPE" then
          errBodyTs "Saweria returned HTML page. User ID might be invalid." now
        else errBodyTs ("API returned non-JSON response: " ++ toString r.status) now := by
  have hcond : (!ctIsJson r.contentType) = true := by rw [hct]; rfl
  simp only [generateQRISv2, if_pos hcond]

/-- C1's dichotomy at the level of the second-variant `generateQRIS`. -/
theorem generateQRISv2_ok_or_err (f : FetchOutcome) (now : String)
    (hm : f.msgNonEmpty) :
    okQrisBody (generateQRISv2 f now) (upstreamQrStringV2 f) ∨
      errQrisBody (generateQRISv2 f now) := by
  cases f with
  | failed m => exact Or.inr ⟨rfl, m, rfl, hm⟩
  | ok r =>
    by_cases hct : ctIsJson r.contentType = true
    · cases hp : r.parseResult with
      | error m =>
        right
        rw [generateQRISv2_parse_error r m now hct hp]
        refine ⟨rfl, m, rfl, ?_⟩
        have hm' : match r.parseResult with
            | .error m => m ≠ ""
            | .ok _ => True := hm
        rw [hp] at hm'
        exact hm'
      | ok j =>
        by_cases hn : j.isNull = true
        · right
          have hj := Json.eq_null_of_isNull j hn
          rw [hj] at hp
          rw [generateQRISv2_parsed_null r now hct hp]
          exact ⟨rfl, _, rfl, by decide⟩
        · have hnn : j.isNull = false := by simpa using hn
          by_cases hq : truthyOpt ((j.get "data").bind
            (fun d => d.get "qr_string")) = true
          · left
            have hgoal : okQrisBody (generateQRISv2 (.ok r) now)
                ((j.get "data").bind (fun d => d.get "qr_string")) := by
              cases hd : j.get "data" with
              | none => rw [hd] at hq; simp [truthyOpt, Option.bind] at hq
              | some d =>
                rw [hd] at hq
                simp only [Option.bind] at hq
                cases d with
                | obj fs =>
                  rw [generateQRISv2_parsed_ok r j (.obj fs) now hct hp hd hq]
                  exact okQrisBody_spread fs
                | null => simp [Json.get, truthyOpt] at hq
                | bool b => simp [Json.get, truthyOpt] at hq
                | num n => simp [Json.get, truthyOpt] at hq
                | str s => simp [Json.get, truthyOpt] at hq
                | arr l => simp [Json.get, truthyOpt] at hq
            have hup : upstreamQrStringV2 (.ok r)
                = (j.get "data").bind (fun d => d.get "qr_string") := by
              simp only [upstreamQrStringV2, hp]
            rw [hup]
            exact hgoal
          · right
            rw [generateQRISv2_parsed_noQr r j now hct hp hnn
              (by simpa using hq)]
            exact ⟨rfl, _, rfl, by decide⟩
    · right
      have hct' : ctIsJson r.contentType = false := by simpa using hct
      rw [generateQRISv2_nonjson r now hct']
      split
      · exact ⟨rfl, _, rfl, by decide⟩
      · split
        · exact ⟨rfl, _, rfl, by decide⟩
        · exact ⟨rfl, _, rfl,
            append_left_ne_empty _ _ (by decide)⟩

theorem respond_200_success (result : Json) (c : Option UpstreamCall)
    (hshape : result.get "success" = some (.bool true) ∨
      result.get "success" = some (.bool false))
    (h : (respond result c).status = 200) :
    result.get "success" = some (.bool true) := by
  rcases hshape with hs | hs
  · exact hs
  · exfalso
    simp [respond, hs, truthyOpt, Json.truthy] at h

/-- A `success: true` result of `generateQRIS` can only arise from a truthy
upstream `data.qr_string`. -/
theorem generateQRIS_200_implies_qr (reply : UpstreamReply)
    (h : (generateQRIS reply).get "success" = some (.bool true)) :
    truthyOpt (upstreamQrString reply) = true := by
  cases reply with
  | networkFailure m =>
    have h' : (errBody m).get "success" = some (.bool true) := h
    rw [errBody_success] at h'
    simp at h'
  | parseFailure m =>
    have h' : (errBody m).get "success" = some (.bool true) := h
    rw [errBody_success] at h'
    simp at h'
  | parsed j =>
    by_cases hn : j.isNull = true
    · rw [Json.eq_null_of_isNull j hn, generateQRIS_parsed_null,
        errBody_success] at h
      simp at h
    · have hnn : j.isNull = false := by simpa using hn
      by_cases hq : truthyOpt ((j.get "data").bind (fun d => d.get "qr_string"))
          = true
      · exact hq
      · rw [generateQRIS_parsed_noQr j hnn (by simpa using hq),
          errBody_success] at h
        simp at h

/-- A `success: true` result of the second-variant `generateQRIS` can only
arise from a truthy upstream `data.qr_string`. -/
theorem generateQRISv2_200_implies_qr (f : FetchOutcome) (now : String)
    (h : (generateQRISv2 f now).get "success" = some (.bool true)) :
    truthyOpt (upstreamQrStringV2 f) = true := by
  cases f with
  | failed m =>
    have h' : (errBodyTs m now).get "success" = some (.bool true) := h
    rw [errBodyTs_success] at h'
    simp at h'
  | ok r =>
    by_cases hct : ctIsJson r.contentType = true
    · cases hp : r.parseResult with
      | error m =>
        rw [generateQRISv2_parse_error r m now hct hp, errBodyTs_success] at h
        simp at h
      | ok j =>
        by_cases hn : j.isNull = true
        · have hj := Json.eq_null_of_isNull j hn
          rw [hj] at hp
          rw [generateQRISv2_parsed_null r now hct hp, errBodyTs_success] at h
          simp at h
        · have hnn : j.isNull = false := by simpa using hn
          by_cases hq : truthyOpt ((j.get "data").bind
              (fun d => d.get "qr_string")) = true
          · simp only [upstreamQrStringV2, hp]
            exact hq
          · rw [generateQRISv2_parsed_noQr r j now hct hp hnn
              (by simpa using hq), errBodyTs_success] at h
            simp at h
    · have hct' : ctIsJson r.contentType = false := by simpa using hct
      rw [generateQRISv2_nonjson r now hct'] at h
      split at h
      · rw [errBodyTs_success] at h; simp at h
      · split at h
        · rw [errBodyTs_success] at h; simp at h
        · rw [errBodyTs_success] at h; simp at h

/-- C1: for every POST /qris request with integer amount > 0 and a non-empty
userId (so validation passes), and any upstream behaviour whose thrown error
messages are non-empty, the response of either variant is HTTP 200 with
`success:true`, a non-empty `qr_image` data URL, and `qr_string` equal to
the upstream donation record's, or HTTP 400 with `success:false` and a
non-empty error string — never neither. -/
theorem c1_valid_request_dichotomy (a : Int) (ha : 0 < a) (uid : String)
    (hu : uid ≠ "") (reply : UpstreamReply) (hm : reply.msgNonEmpty)
    (r2 : FetchOutcome) (hm2 : r2.msgNonEmpty) (now : String) :
    ((postQris (Json.obj [("amount", .num a), ("userId", .str uid)])
        reply).status = 200 ∧
      okQrisBody (postQris (Json.obj [("amount", .num a),
        ("userId", .str uid)]) reply).body (upstreamQrString reply) ∨
     (postQris (Json.obj [("amount", .num a), ("userId", .str uid)])
        reply).status = 400 ∧
      errQrisBody (postQris (Json.obj [("amount", .num a),
        ("userId", .str uid)]) reply).body) ∧
    ((postQrisV2 (Json.obj [("amount", .num a), ("userId", .str uid)])
        r2 now).status = 200 ∧
      okQrisBody (postQrisV2 (Json.obj [("amount", .num a),
        ("userId", .str uid)]) r2 now).body (upstreamQrStringV2 r2) ∨
     (postQrisV2 (Json.obj [("amount", .num a), ("userId", .str uid)])
        r2 now).status = 400 ∧
      errQrisBody (postQrisV2 (Json.obj [("amount", .num a),
        ("userId", .str uid)]) r2 now).body) := by
  have hA : truthyOpt ((Json.obj [("amount", Json.num a),
      ("userId", Json.str uid)]).get "amount") = true := by
    simp [Json.get, lookupField, truthyOpt, Json.truthy, ha.ne']
  have hU : truthyOpt ((Json.obj [("amount", Json.num a),
      ("userId", Json.str uid)]).get "userId") = true := by
    simp [Json.get, lookupField, truthyOpt, Json.truthy, hu]
  constructor
  · rw [postQris_valid _ hA hU reply]
    rcases generateQRIS_ok_or_err reply hm with hok | herr
    · exact Or.inl ⟨by simp [respond, hok.1, truthyOpt, Json.truthy], hok⟩
    · exact Or.inr ⟨by simp [respond, herr.1, truthyOpt, Json.truthy], herr⟩
  · rw [postQrisV2_valid _ hA hU r2 now]
    rcases generateQRISv2_ok_or_err r2 now hm2 with hok | herr
    · exact Or.inl ⟨by simp [respond, hok.1, truthyOpt, Json.truthy], hok⟩
    · exact Or.inr ⟨by simp [respond, herr.1, truthyOpt, Json.truthy], herr⟩

/-- C1 witness: the spec's own creation scenario, amount 10000 and user
"abc" with the upstream returning a pending donation record. -/
theorem c1_valid_request_dichotomy_witness :
    ((postQris (Json.obj [("amount", .num 10000), ("userId", .str "abc")])
        (.parsed (Json.obj [("data", Json.obj [("id", .str "d1"),
          ("qr_string", .str "00020101"), ("amount", .num 10000),
          ("currency", .str "IDR")])]))).status = 200 ∧
      okQrisBody (postQris (Json.obj [("amount", .num 10000),
        ("userId", .str "abc")]) (.parsed (Json.obj [("data", Json.obj
          [("id", .str "d1"), ("qr_string", .str "00020101"),
           ("amount", .num 10000), ("currency", .str "IDR")])]))).body
        (upstreamQrString (.parsed (Json.obj [("data", Json.obj
          [("id", .str "d1"), ("qr_string", .str "00020101"),
           ("amount", .num 10000), ("currency", .str "IDR")])]))) ∨
     (postQris (Json.obj [("amount", .num 10000), ("userId", .str "abc")])
        (.parsed (Json.obj [("data", Json.obj [("id", .str "d1"),
          ("qr_string", .str "00020101"), ("amount", .num 10000),
          ("currency", .str "IDR")])]))).status = 400 ∧
      errQrisBody (postQris (Json.obj [("amount", .num 10000),
        ("userId", .str "abc")]) (.parsed (Json.obj [("data", Json.obj
          [("id", .str "d1"), ("qr_string", .str "00020101"),
           ("amount", .num 10000), ("currency", .str "IDR")])]))).body) ∧
    ((postQrisV2 (Json.obj [("amount", .num 10000), ("userId", .str "abc")])
        (.failed "request to https://backend.saweria.co failed") "ts").status
        = 200 ∧
      okQrisBody (postQrisV2 (Json.obj [("amount", .num 10000),
        ("userId", .str "abc")])
        (.failed "request to https://backend.saweria.co failed") "ts").body
        (upstreamQrStringV2
          (.failed "request to https://backend.saweria.co failed")) ∨
     (postQrisV2 (Json.obj [("amount", .num 10000), ("userId", .str "abc")])
        (.failed "request to https://backend.saweria.co failed") "ts").status
        = 400 ∧
      errQrisBody (postQrisV2 (Json.obj [("amount", .num 10000),
        ("userId", .str "abc")])
        (.failed "request to https://backend.saweria.co failed") "ts").body) :=
  c1_valid_request_dichotomy 10000 (by decide) "abc" (by decide)
    (.parsed (Json.obj [("data", Json.obj [("id", .str "d1"),
      ("qr_string", .str "00020101"), ("amount", .num 10000),
      ("currency", .str "IDR")])])) trivial
    (.failed "request to https://backend.saweria.co failed")
    (show ("request to https://backend.saweria.co failed" : String) ≠ "" by
      decide) "ts"

/-- C6: whenever the upstream reply for POST /qris parses as JSON but lacks
a truthy `data.qr_string`, the creation fails hard: both variants respond
HTTP 400 with `success:false` and a non-empty descriptive error message —
the dedicated "No QR string" message whenever the parsed result is not
`null`, and the caught TypeError message from the `result.data` access when
it is `null` — and no 200 response is ever produced without a truthy
upstream `qr_string`. -/
theorem c6_no_qr_string_hard_failure (reqBody j : Json) (r2 : RawResponse)
    (now : String)
    (hA : truthyOpt (reqBody.get "amount") = true)
    (hU : truthyOpt (reqBody.get "userId") = true)
    (hq : truthyOpt ((j.get "data").bind (fun d => d.get "qr_string")) = false)
    (hct : ctIsJson r2.contentType = true) (hp : r2.parseResult = .ok j) :
    (postQris reqBody (.parsed j)).status = 400 ∧
    (postQris reqBody (.parsed j)).body.get "success" = some (.bool false) ∧
    (∃ e : String, (postQris reqBody (.parsed j)).body.get "error"
      = some (.str e) ∧ e ≠ "") ∧
    (j.isNull = false → (postQris reqBody (.parsed j)).body.get "error"
      = some (.str "Failed to generate QRIS: No QR string in response")) ∧
    (j.isNull = true → (postQris reqBody (.parsed j)).body.get "error"
      = some (.str nullReadDataMsg)) ∧
    (postQrisV2 reqBody (.ok r2) now).status = 400 ∧
    (postQrisV2 reqBody (.ok r2) now).body.get "success"
      = some (.bool false) ∧
    (∃ e : String, (postQrisV2 reqBody (.ok r2) now).body.get "error"
      = some (.str e) ∧ e ≠ "") ∧
    (j.isNull = false → (postQrisV2 reqBody (.ok r2) now).body.get "error"
      = some (.str "No QR string in response")) ∧
    (j.isNull = true → (postQrisV2 reqBody (.ok r2) now).body.get "error"
      = some (.str nullReadDataMsg)) ∧
    (∀ reply : UpstreamReply, (postQris reqBody reply).status = 200 →
      truthyOpt (upstreamQrString reply) = true) ∧
    (∀ f : FetchOutcome, (postQrisV2 reqBody f now).status = 200 →
      truthyOpt (upstreamQrStringV2 f) = true) := by
  have hall1 : ∀ reply : UpstreamReply, (postQris reqBody reply).status = 200 →
      truthyOpt (upstreamQrString reply) = true := by
    intro reply h200
    rw [postQris_valid reqBody hA hU reply] at h200
    exact generateQRIS_200_implies_qr reply
      (respond_200_success _ _ (generateQRIS_success_shape reply) h200)
  have hall2 : ∀ f : FetchOutcome, (postQrisV2 reqBody f now).status = 200 →
      truthyOpt (upstreamQrStringV2 f) = true := by
    intro f h200
    rw [postQrisV2_valid reqBody hA hU f now] at h200
    exact generateQRISv2_200_implies_qr f now
      (respond_200_success _ _ (generateQRISv2_success_shape f now) h200)
  by_cases hn : j.isNull = true
  · have hj := Json.eq_null_of_isNull j hn
    subst hj
    rw [postQris_valid reqBody hA hU, postQrisV2_valid reqBody hA hU,
      generateQRIS_parsed_null, generateQRISv2_parsed_null r2 now hct hp]
    exact ⟨rfl, rfl, ⟨nullReadDataMsg, rfl, by decide⟩,
      fun hf => absurd hf (by decide), fun _ => rfl, rfl, rfl,
      ⟨nullReadDataMsg, rfl, by decide⟩, fun hf => absurd hf (by decide),
      fun _ => rfl, hall1, hall2⟩
  · have hnn : j.isNull = false := by simpa using hn
    rw [postQris_valid reqBody hA hU, postQrisV2_valid reqBody hA hU,
      generateQRIS_parsed_noQr j hnn hq,
      generateQRISv2_parsed_noQr r2 j now hct hp hnn hq]
    exact ⟨rfl, rfl,
      ⟨"Failed to generate QRIS: No QR string in response", rfl, by decide⟩,
      fun _ => rfl, fun ht => absurd ht (by simp [hnn]), rfl, rfl,
      ⟨"No QR string in response", rfl, by decide⟩, fun _ => rfl,
      fun ht => absurd ht (by simp [hnn]), hall1, hall2⟩

/-- C6 witness: a parsed upstream reply whose `data` has no `qr_string`. -/
theorem c6_no_qr_string_hard_failure_witness :
    (postQris (Json.obj [("amount", .num 10000), ("userId", .str "abc")])
        (.parsed (Json.obj [("data", Json.obj [("id", .str "d1")])]))).status
      = 400 ∧
    (postQris (Json.obj [("amount", .num 10000), ("userId", .str "abc")])
        (.parsed (Json.obj [("data", Json.obj
          [("id", .str "d1")])]))).body.get "success" = some (.bool false) ∧
    (∃ e : String,
      (postQris (Json.obj [("amount", .num 10000), ("userId", .str "abc")])
        (.parsed (Json.obj [("data", Json.obj
          [("id", .str "d1")])]))).body.get "error"
      = some (.str e) ∧ e ≠ "") ∧
    ((Json.obj [("data", Json.obj [("id", .str "d1")])]).isNull = false →
      (postQris (Json.obj [("amount", .num 10000), ("userId", .str "abc")])
        (.parsed (Json.obj [("data", Json.obj
          [("id", .str "d1")])]))).body.get "error"
      = some (.str "Failed to generate QRIS: No QR string in response")) ∧
    ((Json.obj [("data", Json.obj [("id", .str "d1")])]).isNull = true →
      (postQris (Json.obj [("amount", .num 10000), ("userId", .str "abc")])
        (.parsed (Json.obj [("data", Json.obj
          [("id", .str "d1")])]))).body.get "error"
      = some (.str nullReadDataMsg)) ∧
    (postQrisV2 (Json.obj [("amount", .num 10000), ("userId", .str "abc")])
        (.ok ⟨200, some "application/json", "()",
          .ok (Json.obj [("data", Json.obj [("id", .str "d1")])])⟩)
        "ts").status = 400 ∧
    (postQrisV2 (Json.obj [("amount", .num 10000), ("userId", .str "abc")])
        (.ok ⟨200, some "application/json", "()",
          .ok (Json.obj [("data", Json.obj [("id", .str "d1")])])⟩)
        "ts").body.get "success" = some (.bool false) ∧
    (∃ e : String,
      (postQrisV2 (Json.obj [("amount", .num 10000), ("userId", .str "abc")])
        (.ok ⟨200, some "application/json", "()",
          .ok (Json.obj [("data", Json.obj [("id", .str "d1")])])⟩)
        "ts").body.get "error" = some (.str e) ∧ e ≠ "") ∧
    ((Json.obj [("data", Json.obj [("id", .str "d1")])]).isNull = false →
      (postQrisV2 (Json.obj [("amount", .num 10000), ("userId", .str "abc")])
        (.ok ⟨200, some "application/json", "()",
          .ok (Json.obj [("data", Json.obj [("id", .str "d1")])])⟩)
        "ts").body.get "error" = some (.str "No QR string in response")) ∧
    ((Json.obj [("data", Json.obj [("id", .str "d1")])]).isNull = true →
      (postQrisV2 (Json.obj [("amount", .num 10000), ("userId", .str "abc")])
        (.ok ⟨200, some "application/json", "()",
          .ok (Json.obj [("data", Json.obj [("id", .str "d1")])])⟩)
        "ts").body.get "error" = some (.str nullReadDataMsg)) ∧
    (∀ reply : UpstreamReply,
      (postQris (Json.obj [("amount", .num 10000), ("userId", .str "abc")])
        reply).status = 200 → truthyOpt (upstreamQrString reply) = true) ∧
    (∀ f : FetchOutcome,
      (postQrisV2 (Json.obj [("amount", .num 10000), ("userId", .str "abc")])
        f "ts").status = 200 → truthyOpt (upstreamQrStringV2 f) = true) :=
  c6_no_qr_string_hard_failure
    (Json.obj [("amount", .num 10000), ("userId", .str "abc")])
    (Json.obj [("data", Json.obj [("id", .str "d1")])])
    ⟨200, some "application/json", "()",
      .ok (Json.obj [("data", Json.obj [("id", .str "d1")])])⟩
    "ts" rfl rfl rfl rfl rfl

end Saweria
